import Mathlib

/-!
A shallow embedding of `VkRenderer.cpp` (constructor, destructor and
`render()` of the `VkRenderer` class) together with proofs about the
object-acquisition protocol, the error-checking discipline, the per-image
resource counts, the fence/semaphore usage and the animated clear color.

Vulkan handles are modelled as natural numbers, enumerated driver data as
lists, machine integers as `Nat`, and the debug assertions of the
constructor as an `Option` result (`none` = the assertion aborted the
process).  `float` arithmetic on the clear color is modelled with exact
rationals.
-/

namespace VkRenderer

/-! ## Vulkan constants used by the source file -/

/-- VK_QUEUE_GRAPHICS_BIT = 0x00000001. -/
def VK_QUEUE_GRAPHICS_BIT : Nat := 1

/-- VK_FORMAT_R8G8B8A8_UNORM = 37. -/
def VK_FORMAT_R8G8B8A8_UNORM : Nat := 37

/-- VK_FORMAT_MAX_ENUM = 0x7FFFFFFF, the sentinel the constructor stores in
`surfaceFormatIndex` before the search loop. -/
def VK_FORMAT_MAX_ENUM : Nat := 0x7FFFFFFF

/-- VK_PRESENT_MODE_FIFO_KHR = 2. -/
def VK_PRESENT_MODE_FIFO_KHR : Nat := 2

/-- VK_PRESENT_MODE_MAX_ENUM_KHR = 0x7FFFFFFF, the sentinel stored in
`presentModeIndex` before the search loop. -/
def VK_PRESENT_MODE_MAX_ENUM_KHR : Nat := 0x7FFFFFFF

/-- VK_COMPOSITE_ALPHA_FLAG_BITS_MAX_ENUM_KHR = 0x7FFFFFFF. -/
def VK_COMPOSITE_ALPHA_FLAG_BITS_MAX_ENUM_KHR : Nat := 0x7FFFFFFF

/-- VK_IMAGE_USAGE_COLOR_ATTACHMENT_BIT = 0x00000010. -/
def VK_IMAGE_USAGE_COLOR_ATTACHMENT_BIT : Nat := 16

/-- VK_BUFFER_USAGE_VERTEX_BUFFER_BIT = 0x00000080. -/
def VK_BUFFER_USAGE_VERTEX_BUFFER_BIT : Nat := 128

/-- `sizeof(Vertex)`: a `Vertex` is two `Vector3`, each three 4-byte floats. -/
def sizeofVertex : Nat := 24

/-- `verticesSize = vertices.size() * sizeof(Vertex)` with the hard-coded
3-element `vertices` array of stage 17. -/
def verticesSize : Nat := 3 * sizeofVertex

/-! ## Handle kinds and call events -/

/-- The kinds of handles the constructor acquires, one constructor per
acquisition stage of `VkRenderer::VkRenderer` (the per-image stages
ImageViews and Framebuffers are one kind each). `inst` stands for the
`mInstance` handle. -/
inductive HandleKind
  | inst
  | device
  | surface
  | swapchain
  | imageViews
  | commandPool
  | commandBuffer
  | fence
  | semaphore
  | renderPass
  | framebuffers
  | vertexShaderModule
  | fragmentShaderModule
  | pipelineLayout
  | pipeline
  | vertexBuffer
  deriving DecidableEq, Repr

/-- The Vulkan calls (with the arguments relevant to the claims) that the
modelled functions can issue.  `create k` covers the `vkCreate*` /
`vkAllocateCommandBuffers` call acquiring a handle of kind `k`;
`createBuffer size usage` is `vkCreateBuffer` with its buffer create info;
the four constructors at the end are calls the source never makes but whose
absence the spec asserts. -/
inductive Event
  | create (k : HandleKind)
  | createBuffer (size : Nat) (usage : Nat)
  | destroy (k : HandleKind)
  | freeCommandBuffers
  | acquireNextImage (useFence : Bool)
  | waitForFences
  | resetFences
  | resetCommandBuffer
  | beginCommandBuffer
  | beginRenderPass (framebuffer : Nat)
  | bindPipeline
  | draw (vertexCount : Nat) (instanceCount : Nat) (firstVertex : Nat) (firstInstance : Nat)
  | endRenderPass
  | endCommandBuffer
  | queueSubmit (signalSemaphore : Nat)
  | queuePresent (waitSemaphore : Nat) (imageIndex : Nat)
  | queueWaitIdle
  | getBufferMemoryRequirements
  | allocateMemory
  | bindBufferMemory
  | bindVertexBuffers
  deriving DecidableEq, Repr

/-- Stage-level acquisition order of `VkRenderer::VkRenderer`
(stages 1-17 of the source, skipping the non-owning PhysicalDevice). -/
def acquireOrder : List HandleKind :=
  [.inst, .device, .surface, .swapchain, .imageViews, .commandPool,
   .commandBuffer, .fence, .semaphore, .renderPass, .framebuffers,
   .vertexShaderModule, .fragmentShaderModule, .pipelineLayout, .pipeline,
   .vertexBuffer]

/-- Stage-level release order of `VkRenderer::~VkRenderer`, line by line. -/
def destroyOrder : List HandleKind :=
  [.vertexBuffer, .pipelineLayout, .pipeline, .vertexShaderModule,
   .fragmentShaderModule, .framebuffers, .renderPass, .imageViews,
   .semaphore, .fence, .commandBuffer, .commandPool, .swapchain, .surface,
   .device, .inst]

/-! ## Selection loops of the constructor -/

/-- The queue-family search loop of stage 3: starting from `0`,
`mQueueFamilyIndex` is incremented until a family whose `queueFlags`
contain `VK_QUEUE_GRAPHICS_BIT` is found; if none is found the loop leaves
the index equal to `queueFamilyPropertiesCount`. -/
def selectQueueFamilyIndex : List Nat → Nat
  | [] => 0
  | flags :: rest =>
    if flags &&& VK_QUEUE_GRAPHICS_BIT ≠ 0 then 0
    else selectQueueFamilyIndex rest + 1

/-- First index of `target` in `l` (the `for`/`break` search pattern used
for the surface format and present mode), `none` when absent. -/
def firstIdx (target : Nat) : List Nat → Option Nat
  | [] => none
  | x :: rest =>
    if x = target then some 0 else (firstIdx target rest).map (· + 1)

/-- `surfaceFormatIndex` after the stage-5 format loop: the first index
whose format is `VK_FORMAT_R8G8B8A8_UNORM`, or the `VK_FORMAT_MAX_ENUM`
sentinel when no entry matches. -/
def surfaceFormatIndex (formats : List Nat) : Nat :=
  (firstIdx VK_FORMAT_R8G8B8A8_UNORM formats).getD VK_FORMAT_MAX_ENUM

/-- `presentModeIndex` after the stage-5 present-mode loop: the first index
equal to `VK_PRESENT_MODE_FIFO_KHR`, or the sentinel when absent. -/
def presentModeIndex (modes : List Nat) : Nat :=
  (firstIdx VK_PRESENT_MODE_FIFO_KHR modes).getD VK_PRESENT_MODE_MAX_ENUM_KHR

/-- The composite-alpha loop of stage 5: the first of the flags
`0x1 << i`, `i = 0..4`, present in `supportedCompositeAlpha`, else the
`MAX_ENUM` sentinel. -/
def firstFlag (supported : Nat) : List Nat → Nat
  | [] => VK_COMPOSITE_ALPHA_FLAG_BITS_MAX_ENUM_KHR
  | f :: rest => if supported &&& f ≠ 0 then f else firstFlag supported rest

/-- `compositeAlpha` after the stage-5 loop. -/
def findCompositeAlpha (supported : Nat) : Nat :=
  firstFlag supported [1, 2, 4, 8, 16]

/-! ## State of a constructed renderer -/

/-- `VkExtent2D`. -/
structure Extent2D where
  width : Nat
  height : Nat
  deriving DecidableEq, Repr

/-- The four channels of `mClearValue.color.float32`, modelled with exact
rationals. -/
structure ClearColor where
  f0 : ℚ
  f1 : ℚ
  f2 : ℚ
  f3 : ℚ
  deriving DecidableEq, Repr

/-- The state of a `VkRenderer` object after construction.  Fields whose
names start with `m` are data members of the class; the remaining fields
record create-info parameters fixed at construction that the claims talk
about (handles themselves are modelled as `Nat`, per-image handles as the
list `List.range n`). -/
structure Renderer where
  mQueueFamilyIndex : Nat
  mSwapchainImages : List Nat
  mSwapchainImageViews : List Nat
  /-- Data member used for the framebuffer size, the viewport/scissor and
  the render area; `VkRenderer.cpp` never assigns it. -/
  mSwapchainImageExtent : Extent2D
  mFramebuffers : List Nat
  mSemaphore : Nat
  /-- State of `mFence`: `true` when signaled. -/
  mFenceSignaled : Bool
  mClearValue : ClearColor
  /-- Whether `vkCreateBuffer` has been issued for `mVertexBuffer`. -/
  mVertexBuffer : Bool
  /-- `imageFormat` passed to `vkCreateSwapchainKHR`. -/
  swapchainImageFormat : Nat
  /-- `presentMode` passed to `vkCreateSwapchainKHR`. -/
  swapchainPresentMode : Nat
  /-- `imageExtent` passed to `vkCreateSwapchainKHR`
  (`surfaceCapabilities.currentExtent`). -/
  swapchainImageExtentUsed : Extent2D
  /-- `width`/`height` of each `VkFramebufferCreateInfo`, in creation
  order. -/
  framebufferExtents : List Extent2D
  /-- `vertexBindingDescriptionCount` of the pipeline's
  `VkPipelineVertexInputStateCreateInfo` (left zero-initialized). -/
  pipelineVertexBindingCount : Nat
  /-- `vertexAttributeDescriptionCount` of the same structure. -/
  pipelineVertexAttributeCount : Nat
  deriving DecidableEq, Repr

/-- What the Vulkan driver and window system report to the constructor:
each field is the data one of the enumeration/query calls returns.
Surface formats and present modes are their numeric enum values, queue
families their `queueFlags`. -/
structure Env where
  instanceExtensions : List String
  queueFamilyFlags : List Nat
  deviceExtensions : List String
  surfaceSupported : Bool
  supportedCompositeAlpha : Nat
  supportedUsageFlags : Nat
  currentExtent : Extent2D
  minImageCount : Nat
  surfaceFormats : List Nat
  presentModes : List Nat
  /-- Count returned by `vkGetSwapchainImagesKHR`. -/
  swapchainImageCount : Nat
  deriving DecidableEq, Repr

/-- Modelled from the spec: `VkRenderer.h` is not part of the source tree;
it declares the data members of the class, and the constructor in
`VkRenderer.cpp` never assigns `mSwapchainImageExtent` or `mClearValue`,
so after construction they still hold whatever in-class value the unseen
header gives them.  Those initial values are parameters of the model. -/
structure InitMembers where
  mSwapchainImageExtent0 : Extent2D
  mClearValue0 : ClearColor
  deriving DecidableEq, Repr

/-! ## The constructor -/

/-- Conjunction of the constructor's debug assertions, in source order:
stage 1 requires both surface extensions, stage 3 requires the swapchain
device extension, stage 4 requires surface support for the selected queue
family, stage 5 requires a supported composite alpha, color-attachment
usage, the fixed surface format and the FIFO present mode.  (There is no
assertion between the queue-family search loop and the use of its
index.) -/
def constructOk (env : Env) : Bool :=
  ((env.instanceExtensions.filter fun s =>
      s == "VK_KHR_surface" || s == "VK_KHR_android_surface").length == 2)
  && ((env.deviceExtensions.filter fun s => s == "VK_KHR_swapchain").length == 1)
  && env.surfaceSupported
  && (findCompositeAlpha env.supportedCompositeAlpha
        != VK_COMPOSITE_ALPHA_FLAG_BITS_MAX_ENUM_KHR)
  && (env.supportedUsageFlags &&& VK_IMAGE_USAGE_COLOR_ATTACHMENT_BIT != 0)
  && (surfaceFormatIndex env.surfaceFormats != VK_FORMAT_MAX_ENUM)
  && (presentModeIndex env.presentModes != VK_PRESENT_MODE_MAX_ENUM_KHR)

/-- The renderer state built by stages 1-16 of the constructor (everything
but the stage-17 vertex buffer).  `mFenceSignaled` is `false` because
`VkFenceCreateInfo.flags` is left zero, so the fence is created
unsignaled; `mSwapchainImageExtent` and `mClearValue` keep their initial
values because the constructor never writes them. -/
def rendererOf (env : Env) (init : InitMembers) : Renderer where
  mQueueFamilyIndex := selectQueueFamilyIndex env.queueFamilyFlags
  mSwapchainImages := List.range env.swapchainImageCount
  mSwapchainImageViews := List.range env.swapchainImageCount
  mSwapchainImageExtent := init.mSwapchainImageExtent0
  mFramebuffers := List.range env.swapchainImageCount
  mSemaphore := 0
  mFenceSignaled := false
  mClearValue := init.mClearValue0
  mVertexBuffer := false
  swapchainImageFormat := env.surfaceFormats.getD (surfaceFormatIndex env.surfaceFormats) 0
  swapchainPresentMode := env.presentModes.getD (presentModeIndex env.presentModes) 0
  swapchainImageExtentUsed := env.currentExtent
  framebufferExtents := List.replicate env.swapchainImageCount init.mSwapchainImageExtent0
  pipelineVertexBindingCount := 0
  pipelineVertexAttributeCount := 0

/-- The handle-acquiring calls of stages 1-16, in source order
(`create .commandBuffer` stands for `vkAllocateCommandBuffers`; the
per-image stages issue one call per swapchain image). -/
def ctorTrace (env : Env) : List Event :=
  [.create .inst, .create .device, .create .surface, .create .swapchain]
  ++ List.replicate env.swapchainImageCount (.create .imageViews)
  ++ [.create .commandPool, .create .commandBuffer, .create .fence,
      .create .semaphore, .create .renderPass]
  ++ List.replicate env.swapchainImageCount (.create .framebuffers)
  ++ [.create .vertexShaderModule, .create .fragmentShaderModule,
      .create .pipelineLayout, .create .pipeline]

/-- Stages 1-16 of `VkRenderer::VkRenderer`: `none` when one of the debug
assertions fails (the process aborts), otherwise the built state and the
acquisition calls issued. -/
def constructCore (env : Env) (init : InitMembers) :
    Option (Renderer × List Event) :=
  if constructOk env then some (rendererOf env init, ctorTrace env) else none

/-- The whole constructor: stages 1-16 followed by stage 17, which only
issues `vkCreateBuffer` for the 3-vertex buffer and records the handle in
`mVertexBuffer`. -/
def construct (env : Env) (init : InitMembers) :
    Option (Renderer × List Event) :=
  (constructCore env init).map fun p =>
    ({ p.1 with mVertexBuffer := true },
     p.2 ++ [.createBuffer verticesSize VK_BUFFER_USAGE_VERTEX_BUFFER_BIT])

/-! ## The destructor -/

/-- The calls of `VkRenderer::~VkRenderer`, line by line; the two loops
iterate over the stored `mFramebuffers` and `mSwapchainImageViews`
vectors. -/
def destructorEvents (r : Renderer) : List Event :=
  [.destroy .vertexBuffer, .destroy .pipelineLayout, .destroy .pipeline,
   .destroy .vertexShaderModule, .destroy .fragmentShaderModule]
  ++ r.mFramebuffers.map (fun _ => .destroy .framebuffers)
  ++ [.destroy .renderPass]
  ++ r.mSwapchainImageViews.map (fun _ => .destroy .imageViews)
  ++ [.destroy .semaphore, .destroy .fence, .freeCommandBuffers,
      .destroy .commandPool, .destroy .swapchain, .destroy .surface,
      .destroy .device, .destroy .inst]

/-- The handle kinds acquired by an event, when it acquires one. -/
def eventCreatesKind : Event → Option HandleKind
  | .create k => some k
  | .createBuffer _ _ => some .vertexBuffer
  | _ => none

/-- The handle kinds released by an event, when it releases one
(`vkFreeCommandBuffers` releases the command buffer). -/
def eventDestroysKind : Event → Option HandleKind
  | .destroy k => some k
  | .freeCommandBuffers => some .commandBuffer
  | _ => none

/-- Kinds acquired along a trace, in order. -/
def createdKinds (tr : List Event) : List HandleKind :=
  tr.filterMap eventCreatesKind

/-- Kinds released along a trace, in order. -/
def destroyedKinds (tr : List Event) : List HandleKind :=
  tr.filterMap eventDestroysKind

/-! ## render() -/

/-- Truncation toward zero, as C's `trunc`. -/
def ratTrunc (x : ℚ) : ℤ := if 0 ≤ x then ⌊x⌋ else -⌊-x⌋

/-- `fmodf(x, 1.0)` over exact rationals: `x - trunc(x / 1.0) * 1.0`.
(The `fmod` operation itself is exact on floats; only the float rounding
of the preceding addition is idealized by working in `ℚ`.) -/
def fmodOne (x : ℚ) : ℚ := x - ratTrunc x

/-- Stage 9 of `render()`: every channel of `mClearValue.color.float32`
is advanced once by `fmodf(c + 0.01, 1.0)`. -/
def stepClear (c : ClearColor) : ClearColor where
  f0 := fmodOne (c.f0 + 1 / 100)
  f1 := fmodOne (c.f1 + 1 / 100)
  f2 := fmodOne (c.f2 + 1 / 100)
  f3 := fmodOne (c.f3 + 1 / 100)

/-- One call of `VkRenderer::render()`.  `imageIndex` is the
`swapchainImageIndex` the driver hands back from `vkAcquireNextImageKHR`
(a nondeterministic input of the model).  The returned trace lists the
Vulkan calls of stages 1-12 in source order; the fence ends unsignaled
because stage 2 waits for it and then resets it. -/
def render (r : Renderer) (imageIndex : Nat) : Renderer × List Event :=
  ({ r with
      mFenceSignaled := false
      mClearValue := stepClear r.mClearValue },
   [.acquireNextImage true, .waitForFences, .resetFences,
    .resetCommandBuffer, .beginCommandBuffer,
    .beginRenderPass (r.mFramebuffers.getD imageIndex 0), .bindPipeline,
    .draw 3 1 0 0, .endRenderPass, .endCommandBuffer,
    .queueSubmit r.mSemaphore, .queuePresent r.mSemaphore imageIndex,
    .queueWaitIdle])

/-- A sequence of `render()` calls, one per acquired image index, with the
concatenated trace. -/
def renderSeq (r : Renderer) : List Nat → Renderer × List Event
  | [] => (r, [])
  | i :: rest =>
    let p := render r i
    let q := renderSeq p.1 rest
    (q.1, p.2 ++ q.2)

/-! ## Event classifiers -/

/-- Whether an event is the `vkAcquireNextImageKHR` call. -/
def isAcquire : Event → Bool
  | .acquireNextImage _ => true
  | _ => false

/-- Whether an event is a `vkCmdDraw` call. -/
def isDraw : Event → Bool
  | .draw _ _ _ _ => true
  | _ => false

/-- Whether an event is a `vkQueueSubmit` call. -/
def isSubmit : Event → Bool
  | .queueSubmit _ => true
  | _ => false

/-- Whether an event is a `vkQueuePresentKHR` call. -/
def isPresent : Event → Bool
  | .queuePresent _ _ => true
  | _ => false

/-- Whether an event is one of the buffer-memory calls the source never
makes: `vkGetBufferMemoryRequirements`, `vkAllocateMemory`,
`vkBindBufferMemory`. -/
def isBufferMemoryOp : Event → Bool
  | .getBufferMemoryRequirements => true
  | .allocateMemory => true
  | .bindBufferMemory => true
  | _ => false

/-- Whether an event is a `vkCmdBindVertexBuffers` call. -/
def isBindVertexBuffers : Event → Bool
  | .bindVertexBuffers => true
  | _ => false

/-- Whether an event is a `vkCreateBuffer` call. -/
def isCreateBuffer : Event → Bool
  | .createBuffer _ _ => true
  | _ => false

/-! ## Result-checking discipline -/

/-- One textual call site of a Vulkan (or `VkUtil`) function in
`VkRenderer.cpp`: whether the function returns a `VkResult`, and whether
the site wraps the call in `VK_CHECK_ERROR`. -/
structure CallSite where
  name : String
  location : String
  returnsResult : Bool
  checked : Bool
  deriving DecidableEq, Repr

/-- Every call site of `VkRenderer.cpp`, in source order: the constructor
(lines 56-649), the destructor (lines 651-674) and `render()`
(lines 676-787).  Enumeration patterns call the same function twice; the
per-image loops have one textual site each. -/
def vkRendererCallSites : List CallSite :=
  [ { name := "vkEnumerateInstanceLayerProperties", location := "constructor", returnsResult := true, checked := true },
    { name := "vkEnumerateInstanceLayerProperties", location := "constructor", returnsResult := true, checked := true },
    { name := "vkEnumerateInstanceExtensionProperties", location := "constructor", returnsResult := true, checked := true },
    { name := "vkEnumerateInstanceExtensionProperties", location := "constructor", returnsResult := true, checked := true },
    { name := "vkCreateInstance", location := "constructor", returnsResult := true, checked := true },
    { name := "vkEnumeratePhysicalDevices", location := "constructor", returnsResult := true, checked := true },
    { name := "vkEnumeratePhysicalDevices", location := "constructor", returnsResult := true, checked := true },
    { name := "vkGetPhysicalDeviceProperties", location := "constructor", returnsResult := false, checked := false },
    { name := "vkGetPhysicalDeviceQueueFamilyProperties", location := "constructor", returnsResult := false, checked := false },
    { name := "vkGetPhysicalDeviceQueueFamilyProperties", location := "constructor", returnsResult := false, checked := false },
    { name := "vkEnumerateDeviceExtensionProperties", location := "constructor", returnsResult := true, checked := true },
    { name := "vkEnumerateDeviceExtensionProperties", location := "constructor", returnsResult := true, checked := true },
    { name := "vkCreateDevice", location := "constructor", returnsResult := true, checked := true },
    { name := "vkGetDeviceQueue", location := "constructor", returnsResult := false, checked := false },
    { name := "vkCreateAndroidSurfaceKHR", location := "constructor", returnsResult := true, checked := true },
    { name := "vkGetPhysicalDeviceSurfaceSupportKHR", location := "constructor", returnsResult := true, checked := true },
    { name := "vkGetPhysicalDeviceSurfaceCapabilitiesKHR", location := "constructor", returnsResult := true, checked := true },
    { name := "vkGetPhysicalDeviceSurfaceFormatsKHR", location := "constructor", returnsResult := true, checked := true },
    { name := "vkGetPhysicalDeviceSurfaceFormatsKHR", location := "constructor", returnsResult := true, checked := true },
    { name := "vkGetPhysicalDeviceSurfacePresentModesKHR", location := "constructor", returnsResult := true, checked := true },
    { name := "vkGetPhysicalDeviceSurfacePresentModesKHR", location := "constructor", returnsResult := true, checked := true },
    { name := "vkCreateSwapchainKHR", location := "constructor", returnsResult := true, checked := true },
    { name := "vkGetSwapchainImagesKHR", location := "constructor", returnsResult := true, checked := true },
    { name := "vkGetSwapchainImagesKHR", location := "constructor", returnsResult := true, checked := true },
    { name := "vkCreateImageView", location := "constructor", returnsResult := true, checked := true },
    { name := "vkCreateCommandPool", location := "constructor", returnsResult := true, checked := true },
    { name := "vkAllocateCommandBuffers", location := "constructor", returnsResult := true, checked := true },
    { name := "vkCreateFence", location := "constructor", returnsResult := true, checked := true },
    { name := "vkCreateSemaphore", location := "constructor", returnsResult := true, checked := true },
    { name := "vkCreateRenderPass", location := "constructor", returnsResult := true, checked := true },
    { name := "vkCreateFramebuffer", location := "constructor", returnsResult := true, checked := true },
    { name := "vkCompileShader", location := "constructor", returnsResult := true, checked := true },
    { name := "vkCreateShaderModule", location := "constructor", returnsResult := true, checked := true },
    { name := "vkCompileShader", location := "constructor", returnsResult := true, checked := true },
    { name := "vkCreateShaderModule", location := "constructor", returnsResult := true, checked := true },
    { name := "vkCreatePipelineLayout", location := "constructor", returnsResult := true, checked := true },
    { name := "vkCreateGraphicsPipelines", location := "constructor", returnsResult := true, checked := true },
    { name := "vkCreateBuffer", location := "constructor", returnsResult := true, checked := true },
    { name := "vkDestroyBuffer", location := "destructor", returnsResult := false, checked := false },
    { name := "vkDestroyPipelineLayout", location := "destructor", returnsResult := false, checked := false },
    { name := "vkDestroyPipeline", location := "destructor", returnsResult := false, checked := false },
    { name := "vkDestroyShaderModule", location := "destructor", returnsResult := false, checked := false },
    { name := "vkDestroyShaderModule", location := "destructor", returnsResult := false, checked := false },
    { name := "vkDestroyFramebuffer", location := "destructor", returnsResult := false, checked := false },
    { name := "vkDestroyRenderPass", location := "destructor", returnsResult := false, checked := false },
    { name := "vkDestroyImageView", location := "destructor", returnsResult := false, checked := false },
    { name := "vkDestroySemaphore", location := "destructor", returnsResult := false, checked := false },
    { name := "vkDestroyFence", location := "destructor", returnsResult := false, checked := false },
    { name := "vkFreeCommandBuffers", location := "destructor", returnsResult := false, checked := false },
    { name := "vkDestroyCommandPool", location := "destructor", returnsResult := false, checked := false },
    { name := "vkDestroySwapchainKHR", location := "destructor", returnsResult := false, checked := false },
    { name := "vkDestroySurfaceKHR", location := "destructor", returnsResult := false, checked := false },
    { name := "vkDestroyDevice", location := "destructor", returnsResult := false, checked := false },
    { name := "vkDestroyInstance", location := "destructor", returnsResult := false, checked := false },
    { name := "vkAcquireNextImageKHR", location := "render", returnsResult := true, checked := true },
    { name := "vkWaitForFences", location := "render", returnsResult := true, checked := true },
    { name := "vkResetFences", location := "render", returnsResult := true, checked := true },
    { name := "vkResetCommandBuffer", location := "render", returnsResult := true, checked := false },
    { name := "vkBeginCommandBuffer", location := "render", returnsResult := true, checked := true },
    { name := "vkCmdBeginRenderPass", location := "render", returnsResult := false, checked := false },
    { name := "vkCmdBindPipeline", location := "render", returnsResult := false, checked := false },
    { name := "vkCmdDraw", location := "render", returnsResult := false, checked := false },
    { name := "vkCmdEndRenderPass", location := "render", returnsResult := false, checked := false },
    { name := "vkEndCommandBuffer", location := "render", returnsResult := true, checked := true },
    { name := "vkQueueSubmit", location := "render", returnsResult := true, checked := true },
    { name := "vkQueuePresentKHR", location := "render", returnsResult := true, checked := true },
    { name := "vkQueueWaitIdle", location := "render", returnsResult := true, checked := true } ]

/-- Modelled from the spec: the `VK_CHECK_ERROR` macro is defined in
`VkUtil.h`, which is not part of the source tree; per the spec it aborts
the process on an unexpected (non-`VK_SUCCESS`) result code.  Abort is
modelled as `none`; `VK_SUCCESS = 0`. -/
def vkCheckError (r : Int) : Option Unit := if r = 0 then some () else none

/-! ## Concrete sample inputs -/

/-- A driver environment on which every constructor assertion passes:
both surface extensions present, one graphics-capable queue family, the
swapchain extension, a supported surface, opaque composite alpha,
color-attachment usage, a `R8G8B8A8_UNORM` surface format, the FIFO
present mode, and three swapchain images on a 1080 x 2400 surface. -/
def env0 : Env where
  instanceExtensions := ["VK_KHR_surface", "VK_KHR_android_surface"]
  queueFamilyFlags := [1]
  deviceExtensions := ["VK_KHR_swapchain"]
  surfaceSupported := true
  supportedCompositeAlpha := 1
  supportedUsageFlags := 16
  currentExtent := ⟨1080, 2400⟩
  minImageCount := 2
  surfaceFormats := [37]
  presentModes := [2]
  swapchainImageCount := 3

/-- `env0` with two queue families, `TRANSFER` (4) and `COMPUTE` (2):
no family reports `VK_QUEUE_GRAPHICS_BIT`. -/
def envNoGraphics : Env := { env0 with queueFamilyFlags := [4, 2] }

/-- `env0` with surface formats `B8G8R8A8_UNORM` (44) and
`R8G8B8A8_SRGB` (43): `VK_FORMAT_R8G8B8A8_UNORM` is absent. -/
def envNoFormat : Env := { env0 with surfaceFormats := [44, 43] }

/-- `env0` with only the `MAILBOX` present mode (1): FIFO is absent. -/
def envNoFifo : Env := { env0 with presentModes := [1] }

/-- Value-initialized data members: a zero extent and a zero clear
color. -/
def initZero : InitMembers where
  mSwapchainImageExtent0 := ⟨0, 0⟩
  mClearValue0 := ⟨0, 0, 0, 0⟩

/-- A concrete renderer state, as built by the constructor on `env0` and
`initZero`. -/
def sampleRenderer : Renderer :=
  { rendererOf env0 initZero with mVertexBuffer := true }

/-! ## Helper lemmas -/

lemma filterMap_replicate {α β : Type} (f : α → Option β) (n : Nat) (a : α) :
    (List.replicate n a).filterMap f =
      match f a with
      | some b => List.replicate n b
      | none => [] := by
  induction n with
  | zero => cases h : f a <;> simp
  | succ n ih =>
    cases h : f a <;>
      simp [List.replicate_succ, List.filterMap_cons, h, ih, h ▸ ih]

lemma filterMap_map_const {α β γ : Type} (l : List α) (a : β) (g : β → Option γ) :
    (l.map fun _ => a).filterMap g =
      match g a with
      | some b => List.replicate l.length b
      | none => [] := by
  induction l with
  | nil => cases h : g a <;> simp
  | cons x xs ih =>
    cases h : g a <;>
      simp_all [List.filterMap_cons, List.replicate_succ]

/-- The kinds acquired by the constructor's trace, flattened. -/
lemma createdKinds_construct (env : Env) :
    createdKinds (ctorTrace env
        ++ [.createBuffer verticesSize VK_BUFFER_USAGE_VERTEX_BUFFER_BIT]) =
      [.inst, .device, .surface, .swapchain]
      ++ List.replicate env.swapchainImageCount .imageViews
      ++ [.commandPool, .commandBuffer, .fence, .semaphore, .renderPass]
      ++ List.replicate env.swapchainImageCount .framebuffers
      ++ [.vertexShaderModule, .fragmentShaderModule, .pipelineLayout,
          .pipeline, .vertexBuffer] := by
  simp [createdKinds, ctorTrace, List.filterMap_append, List.filterMap_cons,
    filterMap_replicate, eventCreatesKind]

/-- The kinds released by the destructor's trace, flattened. -/
lemma destroyedKinds_destructor (r : Renderer) :
    destroyedKinds (destructorEvents r) =
      [.vertexBuffer, .pipelineLayout, .pipeline, .vertexShaderModule,
       .fragmentShaderModule]
      ++ List.replicate r.mFramebuffers.length .framebuffers
      ++ [.renderPass]
      ++ List.replicate r.mSwapchainImageViews.length .imageViews
      ++ [.semaphore, .fence, .commandBuffer, .commandPool, .swapchain,
          .surface, .device, .inst] := by
  simp [destroyedKinds, destructorEvents, List.filterMap_append,
    List.filterMap_cons, filterMap_map_const, eventDestroysKind]

/-! ## C1: create/destroy counts and order -/

/-- C1, counterexample: the destructor does NOT release the handles in the
exact reverse of the constructor's acquisition order (it destroys the
pipeline layout before the pipeline, the vertex shader module before the
fragment shader module, and the image views right after the render pass
instead of just before the swapchain). -/
theorem destroy_order_not_exact_reverse :
    destroyOrder ≠ acquireOrder.reverse := by decide

/-- C1 (amended): for every successful construction, the destructor issues
exactly as many destroy/free calls as the constructor issues
create/allocate calls — the same number for every handle kind — and the
stage-level release order is a permutation of the reverse acquisition
order (each acquired stage released exactly once), though not the exact
reverse. -/
theorem create_destroy_counts_match :
    (∀ env init, (construct env init).isSome →
      ((construct env init).map fun p => (createdKinds p.2).length)
        = ((construct env init).map fun p =>
            (destroyedKinds (destructorEvents p.1)).length)
      ∧ ∀ k : HandleKind,
        ((construct env init).map fun p => (createdKinds p.2).count k)
          = ((construct env init).map fun p =>
              (destroyedKinds (destructorEvents p.1)).count k))
    ∧ destroyOrder.Perm acquireOrder.reverse
    ∧ acquireOrder.Nodup
    ∧ destroyOrder.length = acquireOrder.length := by
  refine ⟨?_, by decide, by decide, by decide⟩
  intro env init h
  unfold construct constructCore at h ⊢
  by_cases hOk : constructOk env = true
  · rw [hOk] at h ⊢
    simp only [if_true, Option.map_some', Option.map_map, Function.comp]
    constructor
    · rw [Option.some_inj, createdKinds_construct, destroyedKinds_destructor]
      simp [rendererOf]
      omega
    · intro k
      rw [Option.some_inj, createdKinds_construct, destroyedKinds_destructor]
      simp only [rendererOf, List.length_range]
      cases k <;>
        simp [List.count_append, List.count_cons, List.count_replicate,
          List.count_nil]
  · rw [Bool.not_eq_true] at hOk
    rw [hOk] at h
    simp at h

/-- C1, witness: the count equalities at the concrete environment `env0`
(three swapchain images), both in total and for the per-image
image-view kind. -/
theorem create_destroy_counts_match_witness :
    (((construct env0 initZero).map fun p => (createdKinds p.2).length)
      = ((construct env0 initZero).map fun p =>
          (destroyedKinds (destructorEvents p.1)).length))
    ∧ (((construct env0 initZero).map fun p =>
          (createdKinds p.2).count .imageViews)
        = ((construct env0 initZero).map fun p =>
            (destroyedKinds (destructorEvents p.1)).count .imageViews)) :=
  ⟨((create_destroy_counts_match.1 env0 initZero (by decide)).1),
   ((create_destroy_counts_match.1 env0 initZero (by decide)).2 .imageViews)⟩

/-! ## C2: result-checking discipline -/

/-- C2, counterexample: `render()` calls `vkResetCommandBuffer`, which
returns a `VkResult`, without wrapping it in `VK_CHECK_ERROR`; so it is
not the case that every result-returning Vulkan call is checked. -/
theorem result_discarded_at_resetCommandBuffer :
    (CallSite.mk "vkResetCommandBuffer" "render" true false)
      ∈ vkRendererCallSites
    ∧ ¬ ∀ c ∈ vkRendererCallSites,
        c.returnsResult = true → c.checked = true := by decide

/-- C2 (amended): the `vkResetCommandBuffer` call in `render()` is the
only call site in the file whose result code is discarded; every other
result-returning call is checked immediately with `VK_CHECK_ERROR`, which
(modelled from the spec) lets a `VK_SUCCESS` (0) result through and aborts
the process on any other result code. -/
theorem all_results_checked_except_resetCommandBuffer :
    (vkRendererCallSites.filter fun c => c.returnsResult && ! c.checked)
      = [{ name := "vkResetCommandBuffer", location := "render",
           returnsResult := true, checked := false }]
    ∧ vkCheckError 0 = some ()
    ∧ vkCheckError 1 = none
    ∧ vkCheckError (-4) = none := by
  refine ⟨by decide, rfl, rfl, rfl⟩

/-! ## C3: queue family selection -/

/-- The queue-family loop leaves the index equal to the family count
exactly when no family's flags contain the graphics bit. -/
lemma selectQueueFamilyIndex_eq_length (flags : List Nat) :
    selectQueueFamilyIndex flags = flags.length
      ↔ ∀ f ∈ flags, f &&& VK_QUEUE_GRAPHICS_BIT = 0 := by
  induction flags with
  | nil => simp [selectQueueFamilyIndex]
  | cons f rest ih =>
    by_cases hf : f &&& VK_QUEUE_GRAPHICS_BIT = 0
    · simpa [selectQueueFamilyIndex, hf, List.forall_mem_cons] using ih
    · simp [selectQueueFamilyIndex, hf, List.forall_mem_cons]

/-- When the queue-family loop stops inside the list, the selected family
does report the graphics bit. -/
lemma selectQueueFamilyIndex_graphics (flags : List Nat)
    (h : selectQueueFamilyIndex flags < flags.length) :
    flags.getD (selectQueueFamilyIndex flags) 0 &&& VK_QUEUE_GRAPHICS_BIT
      ≠ 0 := by
  induction flags with
  | nil => simp at h
  | cons f rest ih =>
    by_cases hf : f &&& VK_QUEUE_GRAPHICS_BIT = 0
    · simp only [selectQueueFamilyIndex, hf, ne_eq, not_true_eq_false,
        if_false] at h ⊢
      simp only [List.getD_cons_succ]
      exact ih (by simpa using h)
    · simp [selectQueueFamilyIndex, hf]

/-- C3 (code bug, evaluated at the failing input): with two queue
families reporting `TRANSFER` (4) and `COMPUTE` (2) — so no family has
`VK_QUEUE_GRAPHICS_BIT` — the search loop leaves `mQueueFamilyIndex`
equal to the family count 2, an out-of-range index, and construction
nevertheless runs to completion with that index instead of failing fast.
(At an input with a graphics family, e.g. flags `[4, 3]`, the loop does
pick the smallest graphics-capable index.) -/
theorem no_graphics_family_out_of_range :
    selectQueueFamilyIndex [4, 2] = 2
    ∧ ([4, 2] : List Nat).length = 2
    ∧ ((construct envNoGraphics initZero).map fun p => p.1.mQueueFamilyIndex)
        = some 2
    ∧ envNoGraphics.queueFamilyFlags.length = 2
    ∧ selectQueueFamilyIndex [4, 3] = 1 := by decide

/-! ## C4: surface format and present mode selection -/

/-- The `for`/`break` search finds nothing exactly when the target is
absent. -/
lemma firstIdx_eq_none (t : Nat) (l : List Nat) :
    firstIdx t l = none ↔ t ∉ l := by
  induction l with
  | nil => simp [firstIdx]
  | cons x xs ih =>
    by_cases hx : x = t
    · subst hx
      simp [firstIdx]
    · simp only [firstIdx, if_neg hx, Option.map_eq_none', ih, List.mem_cons]
      constructor
      · intro h hor
        rcases hor with h1 | h2
        · exact hx h1.symm
        · exact h h2
      · intro h h2
        exact h (Or.inr h2)

/-- A found index is in range and points at the target. -/
lemma firstIdx_some (t : Nat) (l : List Nat) (i : Nat)
    (h : firstIdx t l = some i) : i < l.length ∧ l.getD i 0 = t := by
  induction l generalizing i with
  | nil => simp [firstIdx] at h
  | cons x xs ih =>
    by_cases hx : x = t
    · simp [firstIdx, hx] at h
      subst h
      simp [hx]
    · simp [firstIdx, hx, Option.map_eq_some'] at h
      obtain ⟨j, hj, rfl⟩ := h
      have := ih j hj
      simp only [List.length_cons, List.getD_cons_succ]
      exact ⟨by omega, this.2⟩

/-- When the format assertion passes, the index points at
`R8G8B8A8_UNORM`. -/
lemma surfaceFormatIndex_spec (formats : List Nat)
    (h : surfaceFormatIndex formats ≠ VK_FORMAT_MAX_ENUM) :
    formats.getD (surfaceFormatIndex formats) 0
      = VK_FORMAT_R8G8B8A8_UNORM := by
  unfold surfaceFormatIndex at *
  cases hf : firstIdx VK_FORMAT_R8G8B8A8_UNORM formats with
  | none => rw [hf] at h; simp at h
  | some i =>
    simpa using (firstIdx_some _ _ _ hf).2

/-- When the present-mode assertion passes, the index points at FIFO. -/
lemma presentModeIndex_spec (modes : List Nat)
    (h : presentModeIndex modes ≠ VK_PRESENT_MODE_MAX_ENUM_KHR) :
    modes.getD (presentModeIndex modes) 0 = VK_PRESENT_MODE_FIFO_KHR := by
  unfold presentModeIndex at *
  cases hf : firstIdx VK_PRESENT_MODE_FIFO_KHR modes with
  | none => rw [hf] at h; simp at h
  | some i =>
    simpa using (firstIdx_some _ _ _ hf).2

/-- C4: every successful construction passes `VK_FORMAT_R8G8B8A8_UNORM`
and `VK_PRESENT_MODE_FIFO_KHR` to the swapchain create info, and when the
required format, or the required present mode, is absent from the
enumerated options, the corresponding assertion aborts construction. -/
theorem format_and_present_mode_selection :
    (∀ env init, (construct env init).isSome →
      ((construct env init).map fun p => p.1.swapchainImageFormat)
        = some VK_FORMAT_R8G8B8A8_UNORM
      ∧ ((construct env init).map fun p => p.1.swapchainPresentMode)
        = some VK_PRESENT_MODE_FIFO_KHR)
    ∧ (∀ env init, VK_FORMAT_R8G8B8A8_UNORM ∉ env.surfaceFormats →
        construct env init = none)
    ∧ (∀ env init, VK_PRESENT_MODE_FIFO_KHR ∉ env.presentModes →
        construct env init = none) := by
  refine ⟨?_, ?_, ?_⟩
  · intro env init h
    unfold construct constructCore at h ⊢
    by_cases hOk : constructOk env = true
    · have hc := hOk
      unfold constructOk at hc
      simp only [Bool.and_eq_true, bne_iff_ne, ne_eq] at hc
      rw [hOk]
      simp only [if_true, Option.map_some', Option.map_map, Function.comp]
      constructor
      · rw [Option.some_inj]
        show (rendererOf env init).swapchainImageFormat = _
        unfold rendererOf
        exact surfaceFormatIndex_spec _ hc.1.2
      · rw [Option.some_inj]
        show (rendererOf env init).swapchainPresentMode = _
        unfold rendererOf
        exact presentModeIndex_spec _ hc.2
    · rw [Bool.not_eq_true] at hOk
      rw [hOk] at h
      simp at h
  · intro env init h
    have hMax : surfaceFormatIndex env.surfaceFormats = VK_FORMAT_MAX_ENUM := by
      unfold surfaceFormatIndex
      rw [(firstIdx_eq_none _ _).mpr h]
      rfl
    simp [construct, constructCore, constructOk, hMax]
  · intro env init h
    have hMax : presentModeIndex env.presentModes
        = VK_PRESENT_MODE_MAX_ENUM_KHR := by
      unfold presentModeIndex
      rw [(firstIdx_eq_none _ _).mpr h]
      rfl
    simp [construct, constructCore, constructOk, hMax]

/-- C4, witness: on `env0` the selected format and present mode are 37 and
2; on `envNoFormat` (no `R8G8B8A8_UNORM`) and `envNoFifo` (no FIFO)
construction aborts. -/
theorem format_and_present_mode_selection_witness :
    (((construct env0 initZero).map fun p => p.1.swapchainImageFormat)
      = some VK_FORMAT_R8G8B8A8_UNORM)
    ∧ construct envNoFormat initZero = none
    ∧ construct envNoFifo initZero = none :=
  ⟨(format_and_present_mode_selection.1 env0 initZero (by decide)).1,
   format_and_present_mode_selection.2.1 envNoFormat initZero (by decide),
   format_and_present_mode_selection.2.2 envNoFifo initZero (by decide)⟩

/-! ## C5: one image view and one framebuffer per swapchain image -/

/-- C5: after a successful construction, the swapchain image list, the
image-view list and the framebuffer list all have length
`swapchainImageCount` (the count returned by the swapchain query). -/
theorem per_image_resource_counts :
    ∀ env init, (construct env init).isSome →
      ((construct env init).map fun p => p.1.mSwapchainImages.length)
        = some env.swapchainImageCount
      ∧ ((construct env init).map fun p => p.1.mSwapchainImageViews.length)
        = some env.swapchainImageCount
      ∧ ((construct env init).map fun p => p.1.mFramebuffers.length)
        = some env.swapchainImageCount := by
  intro env init h
  unfold construct constructCore at h ⊢
  by_cases hOk : constructOk env = true
  · rw [hOk]
    simp [rendererOf]
  · rw [Bool.not_eq_true] at hOk
    rw [hOk] at h
    simp at h

/-- C5, witness: on `env0` all three per-image lists have length 3. -/
theorem per_image_resource_counts_witness :
    ((construct env0 initZero).map fun p => p.1.mSwapchainImages.length)
      = some env0.swapchainImageCount
    ∧ ((construct env0 initZero).map fun p => p.1.mSwapchainImageViews.length)
      = some env0.swapchainImageCount
    ∧ ((construct env0 initZero).map fun p => p.1.mFramebuffers.length)
      = some env0.swapchainImageCount :=
  per_image_resource_counts env0 initZero (by decide)

/-! ## C6: framebuffer extent vs swapchain extent -/

/-- C6 (code bug, evaluated at the failing input): `vkCreateSwapchainKHR`
receives `surfaceCapabilities.currentExtent` (1080 x 2400 here), but every
`VkFramebufferCreateInfo` receives `mSwapchainImageExtent`, which the
constructor never assigns — with value-initialized members the
framebuffers are created 0 x 0, not equal to the swapchain extent.  The
last conjunct shows the framebuffer extents come from the unassigned
member for every environment. -/
theorem framebuffer_extent_mismatch :
    ((construct env0 initZero).map fun p =>
        (p.1.swapchainImageExtentUsed, p.1.framebufferExtents))
      = some (⟨1080, 2400⟩, List.replicate 3 ⟨0, 0⟩)
    ∧ (⟨0, 0⟩ : Extent2D) ≠ ⟨1080, 2400⟩
    ∧ ∀ env init,
        ((construct env init).map fun p => p.1.framebufferExtents)
          = ((construct env init).map fun _ =>
              List.replicate env.swapchainImageCount
                init.mSwapchainImageExtent0) := by
  refine ⟨by decide, by decide, ?_⟩
  intro env init
  unfold construct constructCore
  by_cases hOk : constructOk env = true
  · rw [hOk]
    simp [rendererOf]
  · rw [Bool.not_eq_true] at hOk
    rw [hOk]
    simp

/-! ## C7: animated clear color stays in [0, 1) -/

/-- All four channels lie in the interval `[0, 1)`. -/
def ClearColor.InRange (c : ClearColor) : Prop :=
  (0 ≤ c.f0 ∧ c.f0 < 1) ∧ (0 ≤ c.f1 ∧ c.f1 < 1)
  ∧ (0 ≤ c.f2 ∧ c.f2 < 1) ∧ (0 ≤ c.f3 ∧ c.f3 < 1)

instance (c : ClearColor) : Decidable c.InRange := by
  unfold ClearColor.InRange
  infer_instance

/-- `fmod(x, 1.0)` of a nonnegative argument lies in `[0, 1)`. -/
lemma fmodOne_mem_Ico {x : ℚ} (hx : 0 ≤ x) :
    0 ≤ fmodOne x ∧ fmodOne x < 1 := by
  unfold fmodOne ratTrunc
  rw [if_pos hx]
  constructor
  · have h := Int.fract_nonneg (α := ℚ) x
    rwa [Int.fract] at h
  · have h := Int.fract_lt_one (α := ℚ) x
    rwa [Int.fract] at h

/-- One clear-color update keeps every channel in `[0, 1)`. -/
lemma stepClear_inRange (c : ClearColor) (h : c.InRange) :
    (stepClear c).InRange := by
  obtain ⟨⟨h0, _⟩, ⟨h1, _⟩, ⟨h2, _⟩, ⟨h3, _⟩⟩ := h
  unfold ClearColor.InRange stepClear
  refine ⟨fmodOne_mem_Ico ?_, fmodOne_mem_Ico ?_, fmodOne_mem_Ico ?_,
    fmodOne_mem_Ico ?_⟩ <;> linarith

/-- The clear-color range is invariant under any sequence of `render()`
calls. -/
lemma renderSeq_clear_inRange (idxs : List Nat) :
    ∀ r : Renderer, r.mClearValue.InRange →
      (renderSeq r idxs).1.mClearValue.InRange := by
  induction idxs with
  | nil => intro r h; exact h
  | cons i rest ih =>
    intro r h
    exact ih (render r i).1 (stepClear_inRange r.mClearValue h)

/-- C7: each `render()` call advances every clear-color channel exactly
once by `fmodf(c + 0.01, 1.0)`, and starting from channels in `[0, 1)`
every channel stays in `[0, 1)` after any number of `render()` calls. -/
theorem clear_color_in_unit_range :
    ∀ (r : Renderer) (idxs : List Nat), r.mClearValue.InRange →
      (renderSeq r idxs).1.mClearValue.InRange
      ∧ ∀ i : Nat, (render r i).1.mClearValue = stepClear r.mClearValue := by
  intro r idxs h
  exact ⟨renderSeq_clear_inRange idxs r h, fun _ => rfl⟩

/-- C7, witness: three `render()` calls starting from the zero clear color
keep all channels in `[0, 1)`. -/
theorem clear_color_in_unit_range_witness :
    (renderSeq sampleRenderer [0, 1, 2]).1.mClearValue.InRange :=
  (clear_color_in_unit_range sampleRenderer [0, 1, 2] (by decide)).1

/-! ## C8: the per-frame protocol -/

/-- Any sequence of `render()` calls issues exactly one present per
call. -/
lemma renderSeq_presents (idxs : List Nat) :
    ∀ r : Renderer, (renderSeq r idxs).2.countP isPresent = idxs.length := by
  induction idxs with
  | nil => intro r; rfl
  | cons i rest ih =>
    intro r
    show ((render r i).2 ++ (renderSeq (render r i).1 rest).2).countP
        isPresent = rest.length + 1
    rw [List.countP_append, ih]
    have h1 : (render r i).2.countP isPresent = 1 := rfl
    rw [h1]
    omega

/-- C8: one `render()` call issues, in source order, exactly one
acquisition, one draw of 3 vertices and 1 instance inside a render pass
bound to the acquired image's framebuffer, one submission signaling
`mSemaphore`, one present waiting on the same `mSemaphore`, and finishes
with the queue-idle wait as its last call; after `N` calls exactly `N`
presents have been issued. -/
theorem render_protocol_trace :
    ∀ (r : Renderer) (i : Nat),
      (render r i).2
        = [.acquireNextImage true, .waitForFences, .resetFences,
           .resetCommandBuffer, .beginCommandBuffer,
           .beginRenderPass (r.mFramebuffers.getD i 0), .bindPipeline,
           .draw 3 1 0 0, .endRenderPass, .endCommandBuffer,
           .queueSubmit r.mSemaphore, .queuePresent r.mSemaphore i,
           .queueWaitIdle]
      ∧ ((render r i).2.countP isAcquire = 1
         ∧ (render r i).2.countP isDraw = 1
         ∧ (render r i).2.countP isSubmit = 1
         ∧ (render r i).2.countP isPresent = 1)
      ∧ (render r i).2.getLast? = some .queueWaitIdle
      ∧ ∀ idxs : List Nat,
          (renderSeq r idxs).2.countP isPresent = idxs.length := by
  intro r i
  exact ⟨rfl, ⟨rfl, rfl, rfl, rfl⟩, rfl, fun idxs => renderSeq_presents idxs r⟩

/-- C8, witness: the protocol at a concrete renderer state and image
index, and three presents after three calls. -/
theorem render_protocol_trace_witness :
    (render sampleRenderer 0).2.countP isPresent = 1
    ∧ (renderSeq sampleRenderer [0, 1, 0]).2.countP isPresent
        = ([0, 1, 0] : List Nat).length :=
  ⟨(render_protocol_trace sampleRenderer 0).2.1.2.2.2,
   (render_protocol_trace sampleRenderer 0).2.2.2 [0, 1, 0]⟩

/-! ## C9: the fence stays unsignaled across frames -/

/-- Any sequence of `render()` calls leaves the fence unsignaled. -/
lemma renderSeq_fence (idxs : List Nat) :
    ∀ r : Renderer, r.mFenceSignaled = false →
      (renderSeq r idxs).1.mFenceSignaled = false := by
  induction idxs with
  | nil => intro r h; exact h
  | cons i rest ih =>
    intro r _
    exact ih (render r i).1 rfl

/-- C9: the fence is created unsignaled (`VkFenceCreateInfo.flags = 0`);
every `render()` call waits on the fence right after the acquisition that
signals it and then resets it, so the fence is unsignaled again when
`render()` returns, and the invariant holds after any sequence of
`render()` calls. -/
theorem fence_unsignaled_invariant :
    (∀ env init, (construct env init).isSome →
      ((construct env init).map fun p => p.1.mFenceSignaled) = some false)
    ∧ (∀ (r : Renderer) (i : Nat),
        (render r i).2.take 3
          = [.acquireNextImage true, .waitForFences, .resetFences]
        ∧ (render r i).1.mFenceSignaled = false)
    ∧ ∀ env init, (construct env init).isSome →
        ∀ idxs : List Nat,
          ((construct env init).map fun p =>
              (renderSeq p.1 idxs).1.mFenceSignaled) = some false := by
  refine ⟨?_, fun r i => ⟨rfl, rfl⟩, ?_⟩
  · intro env init h
    unfold construct constructCore at h ⊢
    by_cases hOk : constructOk env = true
    · rw [hOk]
      simp [rendererOf]
    · rw [Bool.not_eq_true] at hOk
      rw [hOk] at h
      simp at h
  · intro env init h idxs
    unfold construct constructCore at h ⊢
    by_cases hOk : constructOk env = true
    · rw [hOk]
      simp only [if_true, Option.map_some', Option.map_map, Function.comp,
        Option.some_inj]
      exact renderSeq_fence idxs _ rfl
    · rw [Bool.not_eq_true] at hOk
      rw [hOk] at h
      simp at h

/-- C9, witness: on `env0` the constructed fence is unsignaled and stays
unsignaled after two `render()` calls. -/
theorem fence_unsignaled_invariant_witness :
    ((construct env0 initZero).map fun p => p.1.mFenceSignaled) = some false
    ∧ ((construct env0 initZero).map fun p =>
        (renderSeq p.1 [0, 1]).1.mFenceSignaled) = some false :=
  ⟨fence_unsignaled_invariant.1 env0 initZero (by decide),
   fence_unsignaled_invariant.2.2 env0 initZero (by decide) [0, 1]⟩

/-! ## C10: the vertex-buffer stage only creates the buffer handle -/

lemma countP_replicate {α : Type} (p : α → Bool) (n : Nat) (a : α) :
    (List.replicate n a).countP p = if p a then n else 0 := by
  induction n with
  | zero => simp
  | succ n ih =>
    by_cases h : p a = true <;>
      simp [List.replicate_succ, List.countP_cons, h, ih]

/-- The stage 1-16 trace contains no buffer call at all. -/
lemma ctorTrace_no_buffer_ops (env : Env) :
    (ctorTrace env).countP isCreateBuffer = 0
    ∧ (ctorTrace env).countP isBufferMemoryOp = 0
    ∧ (ctorTrace env).count
        (.createBuffer verticesSize VK_BUFFER_USAGE_VERTEX_BUFFER_BIT) = 0 := by
  refine ⟨?_, ?_, ?_⟩ <;>
    simp [ctorTrace, List.countP_append, List.countP_cons, countP_replicate,
      List.count_append, List.count_cons, List.count_replicate,
      isCreateBuffer, isBufferMemoryOp]

/-- C10: within a successful construction, stage 17 issues exactly one
buffer call — `vkCreateBuffer` with the 3-vertex size (72 bytes) and
`VERTEX_BUFFER` usage — and the constructor never queries buffer memory
requirements, allocates device memory or binds buffer memory; the
pipeline's vertex input state has zero bindings and zero attributes; the
buffer stage only appends that one call and only sets `mVertexBuffer`,
leaving the rest of the state exactly as stages 1-16 built it; and
`render()` issues no buffer-memory call and never binds a vertex
buffer. -/
theorem vertex_buffer_stage_only_creates :
    (∀ env init, (construct env init).isSome →
      ((construct env init).map fun p => p.2.countP isCreateBuffer) = some 1
      ∧ ((construct env init).map fun p =>
          p.2.count (.createBuffer verticesSize
            VK_BUFFER_USAGE_VERTEX_BUFFER_BIT)) = some 1
      ∧ ((construct env init).map fun p => p.2.countP isBufferMemoryOp)
          = some 0
      ∧ ((construct env init).map fun p =>
          (p.1.pipelineVertexBindingCount,
           p.1.pipelineVertexAttributeCount)) = some (0, 0)
      ∧ ((construct env init).map fun p =>
            ({ p.1 with mVertexBuffer := false }, p.2.dropLast))
          = constructCore env init)
    ∧ ∀ (r : Renderer) (i : Nat),
        (render r i).2.countP
          (fun e => isBufferMemoryOp e || isBindVertexBuffers e) = 0 := by
  refine ⟨?_, fun r i => rfl⟩
  intro env init h
  unfold construct constructCore at h ⊢
  by_cases hOk : constructOk env = true
  · rw [hOk]
    simp only [if_true, Option.map_some', Option.map_map, Function.comp]
    have hc := ctorTrace_no_buffer_ops env
    refine ⟨?_, ?_, ?_, rfl, ?_⟩
    · rw [Option.some_inj, List.countP_append, hc.1]
      rfl
    · rw [Option.some_inj, List.count_append, hc.2.2]
      rfl
    · rw [Option.some_inj, List.countP_append, hc.2.1]
      rfl
    · rw [Option.some_inj, List.dropLast_concat]
      rfl
  · rw [Bool.not_eq_true] at hOk
    rw [hOk] at h
    simp at h

/-- C10, witness: on `env0` the constructor trace has exactly one
`vkCreateBuffer` (72 bytes, vertex-buffer usage), no buffer-memory call,
and removing the stage-17 effects gives back the stage 1-16 state. -/
theorem vertex_buffer_stage_only_creates_witness :
    ((construct env0 initZero).map fun p => p.2.countP isCreateBuffer)
      = some 1
    ∧ ((construct env0 initZero).map fun p => p.2.countP isBufferMemoryOp)
      = some 0
    ∧ ((construct env0 initZero).map fun p =>
          ({ p.1 with mVertexBuffer := false }, p.2.dropLast))
        = constructCore env0 initZero :=
  ⟨(vertex_buffer_stage_only_creates.1 env0 initZero (by decide)).1,
   (vertex_buffer_stage_only_creates.1 env0 initZero (by decide)).2.2.1,
   (vertex_buffer_stage_only_creates.1 env0 initZero (by decide)).2.2.2.2⟩

end VkRenderer
